import Mathlib

/-!
Shallow embedding of the asynchronous review pipeline of `src/server/worker.py`
(functions `process_review`, `map_pylint_to_finding`, `map_semgrep_to_finding`,
`enqueue_review`, `main_loop`) together with the artifact document built at
worker.py lines 179-190 and the clone call at line 74.

Conventions of the embedding:
* Python dictionaries read with `dict.get` become structures with `Option` fields.
* Python `a or b` (which falls through on `None`, `""` and `0`) becomes the
  explicit helpers `pyOr` / `pyOrNat`.
* `str.lower` / `str.upper` / slicing act on the underlying character list;
  the inputs involved are ASCII, where `Char.toLower` / `Char.toUpper` agree
  with Python.
* `sorted(..., key=k, reverse=True)` is Python's stable sort with the key
  comparison flipped; it is embedded as the structurally recursive stable
  insertion sort `findings_sorted`, which places an element after every
  earlier element of greater-or-equal key.
* Exceptions that a function catches internally become total functions; the
  outcome of the external `git` clone is an explicit `CloneOutcome` argument.
-/

namespace CodeLens

/-! ### Python-truthiness helpers -/

/-- Python `a or b` for an optional string `a`: `None` and `""` are falsy. -/
def pyOr (a : Option String) (b : String) : String :=
  match a with
  | none => b
  | some s => if s = "" then b else s

/-- Python `a or b` for an optional number `a`: `None` and `0` are falsy. -/
def pyOrNat (a : Option Nat) (b : Nat) : Nat :=
  match a with
  | none => b
  | some n => if n = 0 then b else n

/-- Python `str.lower` over the character list (ASCII). -/
def strLower (s : String) : String := String.mk (s.data.map Char.toLower)

/-- Python `str.upper` over the character list (ASCII). -/
def strUpper (s : String) : String := String.mk (s.data.map Char.toUpper)

/-- Python slice `s[:n]`: the first `n` characters of `s`. -/
def strTake (s : String) (n : Nat) : String := String.mk (s.data.take n)

/-- Python `str(x)` for an optional number, as interpolated by an f-string:
`None` prints as the text `None`. -/
def strOfOptNat : Option Nat → String
  | none => "None"
  | some n => toString n

/-! ### Data model -/

/-- One evidence entry of a finding: `{path, start_line, snippet}`. -/
structure Evidence where
  path : String
  start_line : Nat
  snippet : String
deriving DecidableEq

/-- The unified finding shape produced by the two mappers in `process_review`.
Confidence values (`0.8`, `0.9`, `0.7`) are embedded as rationals. -/
structure Finding where
  id : String
  tool : String
  severity : String
  title : String
  description : String
  evidence : List Evidence
  confidence : ℚ
deriving DecidableEq

/-- A raw pylint JSON item, restricted to the keys `map_pylint_to_finding`
reads: `type`, `path`, `module`, `line`, `message`, `symbol`. -/
structure PylintItem where
  type : Option String
  path : Option String
  module : Option String
  line : Option Nat
  message : Option String
  symbol : Option String
deriving DecidableEq

/-- A raw semgrep JSON item, restricted to the keys `map_semgrep_to_finding`
reads. `start`: `some o` when the `start` key holds a dictionary whose `line`
key is `o`; `none` when `start` is absent or not a dictionary. The `extra_*`
fields are the keys of the nested `extra` dictionary; `metadata_message` is
`item["metadata"]["message"]`. -/
structure SemgrepItem where
  check_id : Option String
  path : Option String
  start : Option (Option Nat)
  extra_id : Option String
  extra_path : Option String
  extra_severity : Option String
  extra_lines : Option String
  extra_message : Option String
  metadata_message : Option String
deriving DecidableEq

/-- The synthetic dictionary built at worker.py lines 163-168 when no analyzer
produced findings; its keys differ from the `Finding` shape. -/
structure NoIssuesFinding where
  id : String
  severity : String
  short_reason : String
  evidence : List Evidence
deriving DecidableEq

/-- An element of the persisted `triage.findings` list: either a normalized
finding or the synthetic no-issues dictionary. -/
inductive TriageEntry where
  | finding (f : Finding)
  | synthetic (n : NoIssuesFinding)
deriving DecidableEq

/-! ### map_pylint_to_finding (worker.py lines 92-114) -/

/-- `item.get("type", "").lower()`. -/
def pylint_typ (item : PylintItem) : String := strLower (item.type.getD "")

/-- The severity chain of worker.py lines 94-100. -/
def pylint_severity (item : PylintItem) : String :=
  let typ := pylint_typ item
  if typ = "error" ∨ typ = "fatal" then "high"
  else if typ = "warning" then "medium"
  else if typ = "refactor" ∨ typ = "convention" ∨ typ = "info" then "low"
  else "low"

/-- `item.get("path") or item.get("module") or "<unknown>"`. -/
def pylint_path (item : PylintItem) : String :=
  pyOr item.path (pyOr item.module "<unknown>")

/-- `item.get("line") or 0`. -/
def pylint_line (item : PylintItem) : Nat := pyOrNat item.line 0

/-- `item.get("message") or item.get("symbol") or "pylint issue"`. -/
def pylint_message (item : PylintItem) : String :=
  pyOr item.message (pyOr item.symbol "pylint issue")

/-- `map_pylint_to_finding` of worker.py lines 92-114. -/
def map_pylint_to_finding (item : PylintItem) : Finding :=
  { id := "pylint-" ++ pylint_path item ++ "-" ++ toString (pylint_line item)
          ++ "-" ++ item.symbol.getD ""
    tool := "pylint"
    severity := pylint_severity item
    title := item.symbol.getD (pylint_typ item)
    description := pylint_message item
    evidence := [{ path := pylint_path item, start_line := pylint_line item, snippet := "" }]
    confidence := 0.8 }

/-! ### map_semgrep_to_finding (worker.py lines 116-139) -/

/-- `item.get("check_id") or extra.get("id") or "semgrep"`. -/
def semgrep_check_id (item : SemgrepItem) : String :=
  pyOr item.check_id (pyOr item.extra_id "semgrep")

/-- `item.get("path") or extra.get("path") or "<unknown>"`. -/
def semgrep_path (item : SemgrepItem) : String :=
  pyOr item.path (pyOr item.extra_path "<unknown>")

/-- Lines 120-124: `start` is the `line` of the `start` dictionary when that
dictionary exists, else `0` when `extra["lines"]` is a string, else `None`. -/
def semgrep_start (item : SemgrepItem) : Option Nat :=
  match item.start with
  | some o => o
  | none =>
      match item.extra_lines with
      | some _ => some 0
      | none => none

/-- `extra.get("severity") or "medium"`. -/
def semgrep_raw_severity (item : SemgrepItem) : String :=
  pyOr item.extra_severity "medium"

/-- `sev_map.get(severity.upper(), "medium")` with
`sev_map = ERROR to high, WARNING to medium, INFO to low`. -/
def semgrep_severity (item : SemgrepItem) : String :=
  let u := strUpper (semgrep_raw_severity item)
  if u = "ERROR" then "high"
  else if u = "WARNING" then "medium"
  else if u = "INFO" then "low"
  else "medium"

/-- `map_semgrep_to_finding` of worker.py lines 116-139. -/
def map_semgrep_to_finding (item : SemgrepItem) : Finding :=
  let severity := semgrep_severity item
  { id := "semgrep-" ++ semgrep_check_id item ++ "-" ++ semgrep_path item
          ++ "-" ++ strOfOptNat (semgrep_start item)
    tool := "semgrep"
    severity := severity
    title := semgrep_check_id item
    description := pyOr item.extra_message
      (pyOr item.metadata_message (semgrep_check_id item))
    evidence := [{ path := semgrep_path item,
                   start_line := pyOrNat (semgrep_start item) 0,
                   snippet := strTake (item.extra_lines.getD "") 400 }]
    confidence := if severity = "high" then 0.9 else 0.7 }

/-! ### Ranking (worker.py lines 160-174) -/

/-- `severity_order.get(f.get("severity", "low"), 1)` with the dictionary
`high 3, medium 2, low 1` and default `1`. -/
def severity_order (s : String) : Nat :=
  if s = "high" then 3
  else if s = "medium" then 2
  else if s = "low" then 1
  else 1

/-- Stable descending insertion: `f` goes in front of the first element whose
severity rank is at most `f`'s, hence after every earlier element of
greater-or-equal rank. -/
def insert_by_severity (f : Finding) : List Finding → List Finding
  | [] => [f]
  | g :: gs =>
      if severity_order g.severity ≤ severity_order f.severity then f :: g :: gs
      else g :: insert_by_severity f gs

/-- `sorted(findings, key=severity rank, reverse=True)` — Python's stable
descending sort, as a stable insertion sort. -/
def findings_sorted : List Finding → List Finding
  | [] => []
  | f :: fs => insert_by_severity f (findings_sorted fs)

/-- The synthetic no-issues entry of worker.py lines 163-168. -/
def no_issues_finding : NoIssuesFinding :=
  { id := "no-issues"
    severity := "low"
    short_reason := "No issues detected by static analyzers."
    evidence := [] }

/-- Lines 160-174: an empty merged list yields the single synthetic entry,
otherwise the stable descending sort truncated to the first 25 findings. -/
def triage_findings : List Finding → List TriageEntry
  | [] => [.synthetic no_issues_finding]
  | f :: fs => ((findings_sorted (f :: fs)).take 25).map .finding

/-! ### process_review (worker.py lines 63-197) -/

/-- The submission payload dictionary, restricted to the keys the worker
reads. -/
structure Payload where
  repo_url : Option String
  ref : Option String
  notify_email : Option String
deriving DecidableEq

/-- Outcome of `Repo.clone_from` at line 74: success, or a raised exception
carrying a diagnostic message. -/
inductive CloneOutcome where
  | ok
  | err (msg : String)
deriving DecidableEq

/-- The parsed semgrep output handled at lines 150-154: a JSON object (whose
`results` key may be absent, e.g. the `{}` returned when semgrep fails) or a
JSON array; anything else contributes no items. -/
inductive SemgrepOutput where
  | dict (results : Option (List SemgrepItem))
  | arr (items : List SemgrepItem)
deriving DecidableEq

/-- Lines 150-154: extract the semgrep item list. -/
def semgrep_results_list : SemgrepOutput → List SemgrepItem
  | .dict (some rs) => rs
  | .dict none => []
  | .arr items => items

/-- The `result` dictionary written at worker.py lines 179-185. Its `repo` key
holds `payload.get("repo_url")` and its `patch` key is always `None`; the
patch type records the spec's `{diff, test}` shape for completeness. -/
structure PatchResp where
  diff : String
  test : String
deriving DecidableEq

/-- The persisted artifact document (worker.py lines 179-185). -/
structure ArtifactDoc where
  review_id : String
  repo : Option String
  triage : List TriageEntry
  patch : Option PatchResp
  timestamp : String
deriving DecidableEq

/-- The keys of the `result` dictionary at lines 179-185, in source order. -/
def artifact_keys : List String :=
  ["review_id", "repo", "triage", "patch", "timestamp"]

/-- Observable outcome of one `process_review` call: the artifact documents
written (line 187), in order, and whether the staging directory was removed
(line 197, in the `finally` block). -/
structure ProcessResult where
  writes : List ArtifactDoc
  cleaned : Bool
deriving DecidableEq

/-- Line 65: `ref = payload.get("ref") or "HEAD"`. -/
def process_ref (payload : Payload) : String := pyOr payload.ref "HEAD"

/-- The arguments of the clone call: `Repo.clone_from(repo_url, base_dir,
depth=1)` at line 74, with `base_dir = tempfile.mkdtemp(prefix=...)` at
line 68. No branch or reference argument is passed, so `branch` is `none`
and the clone checks out the remote's default branch. -/
structure CloneRequest where
  url : Option String
  dest_pfx : String
  depth : Nat
  branch : Option String
deriving DecidableEq

/-- The clone request `process_review` issues for a job. -/
def stage_request (review_id : String) (payload : Payload) : CloneRequest :=
  { url := payload.repo_url
    dest_pfx := "rev_" ++ review_id ++ "_"
    depth := 1
    branch := none }

/-- `process_review` (worker.py lines 63-197), parameterized by the clone
outcome and the parsed analyzer outputs (each analyzer's runner returns `[]`
respectively `{}` when the tool fails, lines 26-57). A clone failure is
caught at line 194 and only logged: no artifact is written. The `finally`
block always removes the staging directory. -/
def process_review (review_id : String) (payload : Payload)
    (clone : CloneOutcome) (pylint_results : List PylintItem)
    (semgrep_results : SemgrepOutput) (timestamp : String) : ProcessResult :=
  match clone with
  | .err _ => { writes := [], cleaned := true }
  | .ok =>
      let findings :=
        pylint_results.map map_pylint_to_finding
          ++ (semgrep_results_list semgrep_results).map map_semgrep_to_finding
      let result : ArtifactDoc :=
        { review_id := review_id
          repo := payload.repo_url
          triage := triage_findings findings
          patch := none
          timestamp := timestamp }
      { writes := [result], cleaned := true }

/-! ### Queue handling (worker.py lines 203-229) -/

/-- One queued record `{review_id, payload}`. -/
structure Job where
  review_id : String
  payload : Payload
deriving DecidableEq

/-- The persisted queue file: nonexistent, existing but unparseable
(non-empty text that is not JSON), or a well-formed JSON list of jobs. An
empty file parses as the empty list because of `read_text() or "[]"`. -/
inductive QueueFile where
  | absent
  | malformed (raw : String)
  | stored (jobs : List Job)
deriving DecidableEq

/-- `enqueue_review` (lines 203-212): touch the file, parse it (falling back
to the empty list on a decode error), append the job, write the whole list
back. -/
def enqueue_review (q : QueueFile) (review_id : String) (payload : Payload) :
    QueueFile :=
  let queue_data :=
    match q with
    | .absent => []
    | .malformed _ => []
    | .stored js => js
  .stored (queue_data ++ [{ review_id := review_id, payload := payload }])

/-- The queue step of one `main_loop` iteration (lines 219-227): skip when the
file is absent; a parse error is caught by the `except` and leaves the file
untouched; an empty list is left as is; otherwise pop the head, write the
tail back, and hand the job to `process_review`. Returns the job popped (if
any) and the resulting queue file. -/
def poll_queue (q : QueueFile) : Option Job × QueueFile :=
  match q with
  | .absent => (none, .absent)
  | .malformed raw => (none, .malformed raw)
  | .stored [] => (none, .stored [])
  | .stored (j :: js) => (some j, .stored js)

/-- Enqueue a list of jobs in order. -/
def enqueue_all (q : QueueFile) (jobs : List Job) : QueueFile :=
  jobs.foldl (fun s j => enqueue_review s j.review_id j.payload) q

/-- Run `n` polling iterations, collecting the jobs popped in order. -/
def poll_n : Nat → QueueFile → List Job × QueueFile
  | 0, q => ([], q)
  | Nat.succ n, q =>
      match poll_queue q with
      | (some j, q2) =>
          let r := poll_n n q2
          (j :: r.1, r.2)
      | (none, q2) => ([], q2)

/-! ### Concrete example inputs (from the spec's testable properties) -/

/-- The raw lint item `{type: "error", path: "a.py", line: 10, symbol: "E0001"}`. -/
def pylint_example : PylintItem :=
  { type := some "error", path := some "a.py", module := none,
    line := some 10, message := none, symbol := some "E0001" }

/-- The raw semgrep item `{severity: "WARNING", path: "b.py"}` (the severity
key sits in the nested `extra` dictionary, where the mapper reads it). -/
def semgrep_example : SemgrepItem :=
  { check_id := none, path := some "b.py", start := none, extra_id := none,
    extra_path := none, extra_severity := some "WARNING", extra_lines := none,
    extra_message := none, metadata_message := none }

/-- A minimal concrete finding used to instantiate ranking statements. -/
def finding_example : Finding :=
  { id := "f1", tool := "pylint", severity := "low", title := "t",
    description := "d", evidence := [], confidence := 0.8 }

/-! ### Helper lemmas: the stable descending sort -/

/-- Unfolding of the severity chain of `pylint_severity`. -/
theorem pylint_severity_def (item : PylintItem) :
    pylint_severity item =
      (if pylint_typ item = "error" ∨ pylint_typ item = "fatal" then "high"
       else if pylint_typ item = "warning" then "medium"
       else if pylint_typ item = "refactor" ∨ pylint_typ item = "convention"
              ∨ pylint_typ item = "info" then "low"
       else "low") := rfl

/-- Unfolding of the severity mapping of `semgrep_severity`. -/
theorem semgrep_severity_def (item : SemgrepItem) :
    semgrep_severity item =
      (if strUpper (semgrep_raw_severity item) = "ERROR" then "high"
       else if strUpper (semgrep_raw_severity item) = "WARNING" then "medium"
       else if strUpper (semgrep_raw_severity item) = "INFO" then "low"
       else "medium") := rfl

theorem strTake_length_le (s : String) (n : Nat) : (strTake s n).length ≤ n := by
  have h : (strTake s n).length = (s.data.take n).length := rfl
  rw [h, List.length_take]
  omega

theorem insert_by_severity_perm (f : Finding) (l : List Finding) :
    (insert_by_severity f l).Perm (f :: l) := by
  induction l with
  | nil => exact List.Perm.refl _
  | cons g gs ih =>
      by_cases h : severity_order g.severity ≤ severity_order f.severity
      · simp [insert_by_severity, h]
      · simp only [insert_by_severity, if_neg h]
        exact (ih.cons g).trans (List.Perm.swap f g gs)

theorem findings_sorted_perm (l : List Finding) : (findings_sorted l).Perm l := by
  induction l with
  | nil => exact List.Perm.refl _
  | cons f fs ih =>
      exact (insert_by_severity_perm f (findings_sorted fs)).trans (ih.cons f)

theorem insert_by_severity_pairwise {f : Finding} {l : List Finding}
    (h : l.Pairwise fun a b => severity_order b.severity ≤ severity_order a.severity) :
    (insert_by_severity f l).Pairwise
      fun a b => severity_order b.severity ≤ severity_order a.severity := by
  induction l with
  | nil => simp [insert_by_severity]
  | cons g gs ih =>
      rw [List.pairwise_cons] at h
      obtain ⟨hg, hgs⟩ := h
      by_cases hle : severity_order g.severity ≤ severity_order f.severity
      · rw [insert_by_severity, if_pos hle, List.pairwise_cons]
        refine ⟨?_, List.pairwise_cons.mpr ⟨hg, hgs⟩⟩
        intro b hb
        rcases List.mem_cons.mp hb with hb | hb
        · exact hb ▸ hle
        · exact le_trans (hg b hb) hle
      · rw [insert_by_severity, if_neg hle, List.pairwise_cons]
        refine ⟨?_, ih hgs⟩
        intro b hb
        have hb2 : b ∈ f :: gs := (insert_by_severity_perm f gs).mem_iff.mp hb
        rcases List.mem_cons.mp hb2 with hb2 | hb2
        · subst hb2
          exact le_of_not_le hle
        · exact hg b hb2

theorem findings_sorted_pairwise (l : List Finding) :
    (findings_sorted l).Pairwise
      fun a b => severity_order b.severity ≤ severity_order a.severity := by
  induction l with
  | nil => simp [findings_sorted]
  | cons f fs ih => exact insert_by_severity_pairwise ih

theorem filter_insert_of_eq {f : Finding} {kk : Nat}
    (hf : severity_order f.severity = kk) (l : List Finding) :
    (insert_by_severity f l).filter (fun x => severity_order x.severity == kk)
      = f :: l.filter (fun x => severity_order x.severity == kk) := by
  induction l with
  | nil => simp [insert_by_severity, hf]
  | cons g gs ih =>
      by_cases hle : severity_order g.severity ≤ severity_order f.severity
      · rw [insert_by_severity, if_pos hle, List.filter_cons, if_pos (by simp [hf])]
      · have hgk : ¬ (severity_order g.severity == kk) = true := by
          simp only [beq_iff_eq]
          omega
        rw [insert_by_severity, if_neg hle, List.filter_cons, if_neg hgk, ih,
          List.filter_cons, if_neg hgk]

theorem filter_insert_of_ne {f : Finding} {kk : Nat}
    (hf : severity_order f.severity ≠ kk) (l : List Finding) :
    (insert_by_severity f l).filter (fun x => severity_order x.severity == kk)
      = l.filter (fun x => severity_order x.severity == kk) := by
  have hfk : ¬ (severity_order f.severity == kk) = true := by
    simp only [beq_iff_eq]
    exact hf
  induction l with
  | nil => simp [insert_by_severity, hfk]
  | cons g gs ih =>
      by_cases hle : severity_order g.severity ≤ severity_order f.severity
      · rw [insert_by_severity, if_pos hle, List.filter_cons, if_neg hfk]
      · rw [insert_by_severity, if_neg hle, List.filter_cons, ih, List.filter_cons]

theorem findings_sorted_filter (l : List Finding) (kk : Nat) :
    (findings_sorted l).filter (fun x => severity_order x.severity == kk)
      = l.filter (fun x => severity_order x.severity == kk) := by
  induction l with
  | nil => rfl
  | cons f fs ih =>
      by_cases hf : severity_order f.severity = kk
      · rw [findings_sorted, filter_insert_of_eq hf, ih, List.filter_cons,
          if_pos (by simp [hf])]
      · rw [findings_sorted, filter_insert_of_ne hf, ih, List.filter_cons,
          if_neg (by simp [hf])]

theorem pairwise_take_drop {α : Type} {R : α → α → Prop} {l : List α}
    (h : l.Pairwise R) (n : Nat) :
    ∀ x ∈ l.take n, ∀ y ∈ l.drop n, R x y := by
  rw [← List.take_append_drop n l] at h
  exact (List.pairwise_append.mp h).2.2

theorem enqueue_all_stored (js jobs : List Job) :
    enqueue_all (QueueFile.stored js) jobs = QueueFile.stored (js ++ jobs) := by
  induction jobs generalizing js with
  | nil => simp [enqueue_all]
  | cons j rest ih =>
      have h : enqueue_all (QueueFile.stored js) (j :: rest)
          = enqueue_all (QueueFile.stored (js ++ [j])) rest := rfl
      rw [h, ih]
      simp

theorem poll_n_stored (js : List Job) :
    poll_n js.length (QueueFile.stored js) = (js, QueueFile.stored []) := by
  induction js with
  | nil => rfl
  | cons j rest ih => simp [poll_n, poll_queue, ih]

/-! ### Claim theorems -/

/-- C1 (amended): for every job, processing terminates with at most one
artifact write and a guaranteed staging-directory cleanup: exactly one write
on success, whose document carries the keys `review_id`, `repo`, `triage`,
`patch` and `timestamp` (there is no `status`, `repo_url` or `ref` key), and
no write at all when the clone fails. -/
theorem artifact_write_discipline (rid : String) (p : Payload) (msg : String)
    (py : List PylintItem) (sg : SemgrepOutput) (ts : String) :
    (process_review rid p .ok py sg ts).writes =
      [{ review_id := rid, repo := p.repo_url,
         triage := triage_findings (py.map map_pylint_to_finding
           ++ (semgrep_results_list sg).map map_semgrep_to_finding),
         patch := none, timestamp := ts }] ∧
    (process_review rid p (.err msg) py sg ts).writes = [] ∧
    (process_review rid p .ok py sg ts).cleaned = true ∧
    (process_review rid p (.err msg) py sg ts).cleaned = true ∧
    artifact_keys = ["review_id", "repo", "triage", "patch", "timestamp"] :=
  ⟨rfl, rfl, rfl, rfl, rfl⟩

/-- C1 counterexample: a job whose clone fails terminates with zero artifact
writes, not exactly one, and even a successful job's persisted document has
no `status`, `repo_url` or `ref` field. -/
theorem artifact_write_cx :
    (process_review "rev-0"
        { repo_url := some "https://x.example/a", ref := none, notify_email := none }
        (.err "clone failed") [] (.dict none) "2026-01-01T00:00:00").writes.length = 0 ∧
    "status" ∉ artifact_keys ∧ "repo_url" ∉ artifact_keys ∧ "ref" ∉ artifact_keys := by
  refine ⟨rfl, ?_, ?_, ?_⟩ <;> decide

/-- C2 (amended): for every job whose repository clone fails, the exception is
caught inside `process_review` (so nothing propagates out of the worker
loop), the staging directory is still cleaned up, and no artifact is
persisted at all — in particular none with status `failed`. -/
theorem clone_failure_no_artifact (rid : String) (p : Payload) (msg : String)
    (py : List PylintItem) (sg : SemgrepOutput) (ts : String) :
    process_review rid p (.err msg) py sg ts
      = { writes := [], cleaned := true } :=
  rfl

/-- C2 counterexample: the clone failure for
`{repo_url: "https://invalid.example/nope", ref: "main"}` persists no
artifact whatsoever, hence no artifact with status `failed` and an error
string. -/
theorem clone_failure_cx :
    (process_review "rev-nope"
        { repo_url := some "https://invalid.example/nope", ref := some "main",
          notify_email := none }
        (.err "fatal: repository not found") [] (.dict none)
        "2026-01-01T00:00:00").writes = [] :=
  rfl

/-- C3: for every non-empty merged finding list, the persisted triage list is
the stable descending-severity sort truncated to the first 25 elements: the
sorted list is a permutation of the input, is pairwise descending in severity
rank, preserves the relative order of equal-severity findings (its
restriction to each severity rank equals that of the input), the output never
exceeds 25 entries, and every truncated element has severity rank at most
that of every kept element. -/
theorem ranked_output_spec (fs : List Finding) (h : fs ≠ []) :
    triage_findings fs = ((findings_sorted fs).take 25).map TriageEntry.finding ∧
    (findings_sorted fs).Perm fs ∧
    (findings_sorted fs).Pairwise
      (fun a b => severity_order b.severity ≤ severity_order a.severity) ∧
    (∀ kk : Nat, (findings_sorted fs).filter (fun x => severity_order x.severity == kk)
        = fs.filter (fun x => severity_order x.severity == kk)) ∧
    (triage_findings fs).length ≤ 25 ∧
    (∀ x ∈ (findings_sorted fs).take 25, ∀ y ∈ (findings_sorted fs).drop 25,
        severity_order y.severity ≤ severity_order x.severity) := by
  match fs, h with
  | f :: rest, _ =>
      refine ⟨rfl, findings_sorted_perm _, findings_sorted_pairwise _,
        fun kk => findings_sorted_filter _ kk, ?_, ?_⟩
      · rw [triage_findings, List.length_map, List.length_take]
        omega
      · exact pairwise_take_drop (findings_sorted_pairwise _) 25

/-- C3 witness: the ranking contract instantiated at the one-element list
`[finding_example]`. -/
theorem ranked_output_spec_witness :
    ([finding_example] : List Finding) ≠ [] ∧
    triage_findings [finding_example]
      = ((findings_sorted [finding_example]).take 25).map TriageEntry.finding :=
  ⟨List.cons_ne_nil _ _,
    (ranked_output_spec [finding_example] (List.cons_ne_nil _ _)).1⟩

/-- C4: an empty merged finding list yields exactly the single synthetic
low-severity no-issues entry, never an empty list. -/
theorem empty_findings_synthetic :
    triage_findings [] = [TriageEntry.synthetic no_issues_finding] ∧
    (triage_findings []).length = 1 ∧
    no_issues_finding.severity = "low" ∧
    no_issues_finding.id = "no-issues" ∧
    triage_findings [] ≠ [] :=
  ⟨rfl, rfl, rfl, rfl, List.cons_ne_nil _ _⟩

/-- C5: the pylint mapper derives severity from the item's lowered category
(`error`/`fatal` to high, `warning` to medium, `convention`/`refactor`/`info`
to low, missing category to low), builds the finding id as the stable
composite of derived path, line and rule symbol (so equal composites give
equal ids), and emits a single evidence entry carrying the path and line with
an empty snippet. -/
theorem pylint_mapping_spec (item item2 : PylintItem) :
    (pylint_typ item = "error" ∨ pylint_typ item = "fatal" →
      (map_pylint_to_finding item).severity = "high") ∧
    (pylint_typ item = "warning" →
      (map_pylint_to_finding item).severity = "medium") ∧
    (pylint_typ item = "convention" ∨ pylint_typ item = "refactor"
        ∨ pylint_typ item = "info" →
      (map_pylint_to_finding item).severity = "low") ∧
    (item.type = none → (map_pylint_to_finding item).severity = "low") ∧
    (pylint_path item = pylint_path item2 → pylint_line item = pylint_line item2 →
      item.symbol = item2.symbol →
      (map_pylint_to_finding item).id = (map_pylint_to_finding item2).id) ∧
    (map_pylint_to_finding item).evidence
      = [{ path := pylint_path item, start_line := pylint_line item, snippet := "" }] := by
  refine ⟨?_, ?_, ?_, ?_, ?_, rfl⟩
  · intro h
    show pylint_severity item = "high"
    rcases h with h | h <;> rw [pylint_severity_def, h] <;> decide
  · intro h
    show pylint_severity item = "medium"
    rw [pylint_severity_def, h]
    decide
  · intro h
    show pylint_severity item = "low"
    rcases h with h | h | h <;> rw [pylint_severity_def, h] <;> decide
  · intro h
    have hty : pylint_typ item = "" := by
      unfold pylint_typ
      rw [h]
      rfl
    show pylint_severity item = "low"
    rw [pylint_severity_def, hty]
    decide
  · intro hp hl hs
    show "pylint-" ++ pylint_path item ++ "-" ++ toString (pylint_line item)
        ++ "-" ++ item.symbol.getD ""
      = "pylint-" ++ pylint_path item2 ++ "-" ++ toString (pylint_line item2)
        ++ "-" ++ item2.symbol.getD ""
    rw [hp, hl, hs]

/-- C5 witness: the spec's lint example
`{type: "error", path: "a.py", line: 10, symbol: "E0001"}` maps to severity
`high` with evidence `[{path: "a.py", start_line: 10, snippet: ""}]`. -/
theorem pylint_mapping_spec_witness :
    (pylint_typ pylint_example = "error" ∨ pylint_typ pylint_example = "fatal") ∧
    (map_pylint_to_finding pylint_example).severity = "high" ∧
    (map_pylint_to_finding pylint_example).evidence
      = [{ path := "a.py", start_line := 10, snippet := "" }] := by
  have h := pylint_mapping_spec pylint_example pylint_example
  have htyp : pylint_typ pylint_example = "error" := by decide
  refine ⟨Or.inl htyp, h.1 (Or.inl htyp), ?_⟩
  exact (h.2.2.2.2.2).trans (by decide)

/-- C6: the semgrep mapper maps the item's (defaulted, upper-cased) severity
field case-insensitively as ERROR to high, WARNING to medium, INFO to low,
anything else to medium; confidence is 0.9 exactly for high severity and 0.7
otherwise; and the single evidence entry's snippet is the raw `lines` text
truncated to at most 400 characters. -/
theorem semgrep_mapping_spec (item : SemgrepItem) :
    (strUpper (semgrep_raw_severity item) = "ERROR" →
      (map_semgrep_to_finding item).severity = "high") ∧
    (strUpper (semgrep_raw_severity item) = "WARNING" →
      (map_semgrep_to_finding item).severity = "medium") ∧
    (strUpper (semgrep_raw_severity item) = "INFO" →
      (map_semgrep_to_finding item).severity = "low") ∧
    (strUpper (semgrep_raw_severity item) ∉ (["ERROR", "WARNING", "INFO"] : List String) →
      (map_semgrep_to_finding item).severity = "medium") ∧
    ((map_semgrep_to_finding item).severity = "high" →
      (map_semgrep_to_finding item).confidence = 0.9) ∧
    ((map_semgrep_to_finding item).severity ≠ "high" →
      (map_semgrep_to_finding item).confidence = 0.7) ∧
    (map_semgrep_to_finding item).evidence
      = [{ path := semgrep_path item, start_line := pyOrNat (semgrep_start item) 0,
           snippet := strTake (item.extra_lines.getD "") 400 }] ∧
    (∀ e ∈ (map_semgrep_to_finding item).evidence, e.snippet.length ≤ 400) := by
  refine ⟨?_, ?_, ?_, ?_, ?_, ?_, rfl, ?_⟩
  · intro h
    show semgrep_severity item = "high"
    rw [semgrep_severity_def, h]
    decide
  · intro h
    show semgrep_severity item = "medium"
    rw [semgrep_severity_def, h]
    decide
  · intro h
    show semgrep_severity item = "low"
    rw [semgrep_severity_def, h]
    decide
  · intro h
    have h3 : strUpper (semgrep_raw_severity item) ≠ "ERROR"
        ∧ strUpper (semgrep_raw_severity item) ≠ "WARNING"
        ∧ strUpper (semgrep_raw_severity item) ≠ "INFO" := by
      simpa using h
    show semgrep_severity item = "medium"
    rw [semgrep_severity_def, if_neg h3.1, if_neg h3.2.1, if_neg h3.2.2]
  · intro h
    have h2 : semgrep_severity item = "high" := h
    show (if semgrep_severity item = "high" then (0.9 : ℚ) else 0.7) = 0.9
    rw [if_pos h2]
  · intro h
    have h2 : ¬ semgrep_severity item = "high" := h
    show (if semgrep_severity item = "high" then (0.9 : ℚ) else 0.7) = 0.7
    rw [if_neg h2]
  · intro e he
    have he2 : e ∈
        [({ path := semgrep_path item,
            start_line := pyOrNat (semgrep_start item) 0,
            snippet := strTake (item.extra_lines.getD "") 400 } : Evidence)] := he
    rw [List.mem_singleton] at he2
    rw [he2]
    exact strTake_length_le _ _

/-- C6 witness: the spec's semgrep example `{severity: "WARNING", path:
"b.py"}` maps to severity `medium` with confidence 0.7. -/
theorem semgrep_mapping_spec_witness :
    strUpper (semgrep_raw_severity semgrep_example) = "WARNING" ∧
    (map_semgrep_to_finding semgrep_example).severity = "medium" ∧
    (map_semgrep_to_finding semgrep_example).confidence = 0.7 := by
  have h := semgrep_mapping_spec semgrep_example
  have hw : strUpper (semgrep_raw_severity semgrep_example) = "WARNING" := by decide
  have hm := h.2.1 hw
  refine ⟨hw, hm, h.2.2.2.2.2.1 ?_⟩
  rw [hm]
  decide

/-- C7: enqueuing any sequence of N jobs onto the empty queue and then
polling N times pops exactly those jobs in append order, and the next poll
reports the queue empty. -/
theorem queue_round_trip (jobs : List Job) :
    (poll_n jobs.length (enqueue_all (QueueFile.stored []) jobs)).1 = jobs ∧
    (poll_queue (poll_n jobs.length (enqueue_all (QueueFile.stored []) jobs)).2).1
      = none := by
  rw [enqueue_all_stored, List.nil_append, poll_n_stored]
  exact ⟨rfl, rfl⟩

/-- C8 (amended): a malformed persisted queue document is never fatal: a
dequeue iteration reports no job and leaves the stored document untouched
(it does not reset it), while an enqueue treats the document as an empty
queue and resets the store to the well-formed one-job list. -/
theorem malformed_queue_recovery (raw review_id : String) (p : Payload) :
    poll_queue (QueueFile.malformed raw) = (none, QueueFile.malformed raw) ∧
    enqueue_review (QueueFile.malformed raw) review_id p
      = QueueFile.stored [{ review_id := review_id, payload := p }] :=
  ⟨rfl, rfl⟩

/-- C8 counterexample: after a dequeue on a malformed queue document the
persisted store is still the malformed text, not a reset (well-formed empty)
store — the claim that both queue operations reset the store is false. -/
theorem malformed_queue_cx :
    (poll_queue (QueueFile.malformed "not json")).2 = QueueFile.malformed "not json" ∧
    (poll_queue (QueueFile.malformed "not json")).1 = none ∧
    (poll_queue (QueueFile.malformed "not json")).2 ≠ QueueFile.stored [] := by
  refine ⟨rfl, rfl, ?_⟩
  decide

/-- C9 (amended): staging issues a shallow depth-1 clone of `repo_url` into a
fresh ephemeral directory whose name prefix embeds the review id, but passes
no reference argument: the requested `ref` is read (defaulting to `HEAD`) and
then ignored, so the clone is of the remote's default branch. -/
theorem stage_request_spec (review_id : String) (payload : Payload) :
    (stage_request review_id payload).depth = 1 ∧
    (stage_request review_id payload).branch = none ∧
    (stage_request review_id payload).url = payload.repo_url ∧
    (stage_request review_id payload).dest_pfx = "rev_" ++ review_id ++ "_" ∧
    process_ref { payload with ref := none } = "HEAD" :=
  ⟨rfl, rfl, rfl, rfl, rfl⟩

/-- C9 counterexample: two jobs that differ only in the requested `ref`
produce identical clone requests, and no reference is passed at all, so the
staged copy does not reflect the requested reference. -/
theorem stage_ignores_ref_cx :
    stage_request "r1"
      { repo_url := some "https://x.example/a", ref := some "dev",
        notify_email := none }
      = stage_request "r1"
          { repo_url := some "https://x.example/a", ref := some "main",
            notify_email := none } ∧
    (stage_request "r1"
      { repo_url := some "https://x.example/a", ref := some "dev",
        notify_email := none }).branch ≠ some "dev" := by
  refine ⟨rfl, ?_⟩
  decide

/-- C10: the pylint mapper assigns confidence exactly 0.8 to every finding,
independently of the item's category, path or content. -/
theorem pylint_confidence_constant (item item2 : PylintItem) :
    (map_pylint_to_finding item).confidence = 0.8 ∧
    (map_pylint_to_finding item).confidence
      = (map_pylint_to_finding item2).confidence :=
  ⟨rfl, rfl⟩

end CodeLens
